import Mathlib

/-!
Shallow embedding of the vds-gen virtual dataset generator
(src/vdsgen/vdsgenerator.py), together with proofs about the layout
planner, mapping builder, consistency validator, node validator, mode
selector and fragment resolution.

Shapes are modelled as `List Nat` (Python tuples of ints), dtypes and
paths as `String`.  Fallible operations return `Except String _` or
`Option _`.  Machine integers do not overflow in this program's domain
(pixel counts), so `Nat` is used throughout.
-/

deriving instance DecidableEq for Except

namespace VdsGen

/-- `Source = namedtuple("Source", ["frames", "height", "width", "dtype"])`. -/
structure Source where
  frames : List Nat
  height : Nat
  width : Nat
  dtype : String
deriving Repr, DecidableEq

/-- `VDS = namedtuple("VDS", ["shape", "spacing"])`. -/
structure VDS where
  shape : List Nat
  spacing : List Nat
deriving Repr, DecidableEq

/-- Python `range(a, b, step)` for a positive step, as a list of naturals. -/
def pythonRange (a b step : Nat) : List Nat :=
  List.range' a ((b - a + step - 1) / step) step

/-- `VDSGenerator.construct_vds_metadata`: builds the spacing sequence and
the stacked target shape.  `datasets`, `stripe_spacing` and
`module_spacing` are the attributes of the generator object that the
method reads.

Python source:
```
stripes = len(self.datasets)
spacing = [0] * stripes
for idx in range(0, stripes - 1, 2):
    spacing[idx] = self.stripe_spacing
for idx in range(1, stripes, 2):
    spacing[idx] = self.module_spacing
spacing[-1] = 0
height = (source.height * stripes) + sum(spacing)
shape = source.frames + (height, source.width)
return VDS(shape=shape, spacing=spacing)
```
(`spacing[-1] = 0` raises on an empty list in Python; the generator never
reaches this method with zero datasets, and the embedding's `List.set` is
a no-op there.) -/
def construct_vds_metadata (datasets : List String)
    (stripe_spacing module_spacing : Nat) (source : Source) : VDS :=
  let stripes := datasets.length
  let spacing0 := List.replicate stripes 0
  let spacing1 := (pythonRange 0 (stripes - 1) 2).foldl
    (fun acc idx => acc.set idx stripe_spacing) spacing0
  let spacing2 := (pythonRange 1 stripes 2).foldl
    (fun acc idx => acc.set idx module_spacing) spacing1
  let spacing := spacing2.set (stripes - 1) 0
  let height := source.height * stripes + spacing.sum
  { shape := source.frames ++ [height, source.width], spacing := spacing }

example :
    construct_vds_metadata ["a", "b", "c", "d", "e", "f"] 10 100
      ⟨[3], 256, 2048, "uint16"⟩ =
      { shape := [3, 1766, 2048], spacing := [10, 100, 10, 100, 10, 0] } := by
  decide

example :
    construct_vds_metadata ["a", "b", "c", "d", "e", "f"] 10 10
      ⟨[3], 256, 2048, "uint16"⟩ =
      { shape := [3, 1586, 2048], spacing := [10, 10, 10, 10, 10, 0] } := by
  decide

example :
    construct_vds_metadata ["a", "b", "c", "d", "e"] 7 9
      ⟨[], 100, 50, "uint16"⟩ =
      { shape := [532, 50], spacing := [7, 9, 7, 9, 0] } := by
  decide

/-- One element of the `map_list` built by `create_vds_maps`: the virtual
map from `sourcePath`/`source_node` (shape `sourceShape`) to the target
region `vds[(:,)*len(frames) + (slice(targetStart, targetStop),) + (:,)]`,
i.e. full slices on every axis except the stacked one. -/
structure VirtualMapRec where
  sourcePath : String
  sourceShape : List Nat
  targetStart : Nat
  targetStop : Nat
  dtype : String
deriving Repr, DecidableEq

/-- The loop body of `create_vds_maps`: walks the datasets keeping
`current_position`, with `idx` the running index into `spacing`.

Python source of each iteration:
```
start = current_position
stop = start + source.height + vds_data.spacing[idx]
current_position = stop
index = tuple([self.FULL_SLICE] * len(source.frames) +
              [slice(start, stop)] + [self.FULL_SLICE])
v_target = vds[index]
v_map = h5.VirtualMap(v_source, v_target, dtype=source.dtype)
```
`spacing[idx]` is always in range when called from `create_vds_maps`
(the spacing list has one entry per dataset), so `getD _ 0` is faithful. -/
def vds_maps_go (source : Source) (spacing : List Nat) :
    List String → Nat → Nat → List VirtualMapRec
  | [], _, _ => []
  | dataset :: rest, idx, pos =>
      let start := pos
      let stop := start + source.height + spacing.getD idx 0
      { sourcePath := dataset
        sourceShape := source.frames ++ [source.height, source.width]
        targetStart := start
        targetStop := stop
        dtype := source.dtype } :: vds_maps_go source spacing rest (idx + 1) stop

/-- `VDSGenerator.create_vds_maps`: one `VirtualMap` per dataset, in input
order, accumulating the target position from 0. -/
def create_vds_maps (datasets : List String) (source : Source)
    (vds_data : VDS) : List VirtualMapRec :=
  vds_maps_go source vds_data.spacing datasets 0 0

/-- First mismatching attribute between the reference metadata and a
candidate, iterating `data.items()` of
`dict(frames=..., height=..., width=..., dtype=...)` in insertion order
(CPython 3.7+ dict semantics). -/
def findMismatch (ref cand : Source) : Option String :=
  if cand.frames ≠ ref.frames then some "frames"
  else if cand.height ≠ ref.height then some "height"
  else if cand.width ≠ ref.width then some "width"
  else if cand.dtype ≠ ref.dtype then some "dtype"
  else none

/-- `VDSGenerator.process_source_datasets`: grab metadata of the first
dataset as the reference, then for every subsequent dataset raise
`ValueError("Files have mismatched <attribute>")` at the first attribute
whose value differs from the reference.  `grab` stands for
`grab_metadata` (the array-store probe). -/
def psd_loop (data : Source) (grab : String → Source) :
    List String → Except String Source
  | [] => .ok data
  | dataset :: more =>
      match findMismatch data (grab dataset) with
      | some attr => .error ("Files have mismatched " ++ attr)
      | none => psd_loop data grab more

/-- `process_source_datasets` proper: reference = metadata of the first
dataset, then `psd_loop` scans the rest. -/
def process_source_datasets (grab : String → Source) :
    List String → Except String Source
  | [] => .error "IndexError"
  | d0 :: rest => psd_loop (grab d0) grab rest

/-- `VDSGenerator.parse_shape`:
```
height, width = shape[-2:]
frames = shape[:-2]
return frames, height, width
```
Unpacking `shape[-2:]` into two names raises `ValueError` unless the
slice has exactly two elements, i.e. unless `len(shape) >= 2`; that
failure is `none` here. -/
def parse_shape (shape : List Nat) : Option (List Nat × Nat × Nat) :=
  match shape.drop (shape.length - 2) with
  | [height, width] => some (shape.take (shape.length - 2), height, width)
  | _ => none

example : parse_shape [3, 256, 2048] = some ([3], 256, 2048) := by decide
example : parse_shape [5] = none := by decide
example : parse_shape [] = none := by decide

/-- Python `s.startswith(p)` on character lists. -/
def pyStartsWith (s p : List Char) : Bool := p.isPrefixOf s

/-- Python `s.endswith(p)` on character lists. -/
def pyEndsWith (s p : List Char) : Bool := p.reverse.isPrefixOf s.reverse

/-- Python `s.rsplit(c, 1)[0]` for a string known to contain `c`: the
characters strictly before the last occurrence of `c`. -/
def beforeLast (c : Char) : List Char → List Char
  | [] => []
  | x :: xs => if xs.contains c then x :: beforeLast c xs else []

/-- `VDSGenerator.validate_node`, validation part plus the sub-group it
would create: raises `ValueError` when the target node starts or ends
with a slash; otherwise returns the parent group that is created when the
node contains a slash (`target_node.rsplit("/", 1)[0]`), or `none` for a
flat node.  Strings are handled as their character lists. -/
def validate_node (target_node : List Char) : Except String (Option (List Char)) :=
  if pyStartsWith target_node ['/'] || pyEndsWith target_node ['/'] then
    .error ("Target node should have no leading or trailing slashes, got "
      ++ String.mk target_node)
  else if target_node.contains '/' then
    .ok (some (beforeLast '/' target_node))
  else
    .ok none

example : (validate_node "/entry/detector".data).isOk = false := by decide
example :
    validate_node "entry/detector/detector1".data =
      .ok (some "entry/detector".data) := by decide
example : validate_node "full_frame".data = .ok none := by decide

/-- `os.path.abspath(os.path.join(path, f))` for an absolute, normalised
`path` with no trailing slash and a relative `f`: plain concatenation
with a separator. -/
def path_join (path f : String) : String := path ++ "/" ++ f

/-- `re.match(prefix + r"\d+\.(hdf5|hdf|h5)", name)` as a Boolean: `name`
starts with the (literal) prefix, followed by one or more ASCII digits,
then a dot, then one of the three extension alternatives (`re.match`
anchors only at the start, so trailing characters are allowed). -/
def fileMatches (pfx name : List Char) : Bool :=
  pfx.isPrefixOf name &&
    (let t := name.drop pfx.length
     let digits := t.takeWhile Char.isDigit
     let r := t.dropWhile Char.isDigit
     !digits.isEmpty &&
       match r with
       | '.' :: e =>
           pyStartsWith e "hdf5".data || pyStartsWith e "hdf".data ||
             pyStartsWith e "h5".data
       | _ => false)

example : fileMatches "stripe_".data "stripe_1.h5".data = true := by decide
example : fileMatches "stripe_".data "stripe_12.hdf5".data = true := by decide
example : fileMatches "stripe_".data "stripe_.h5".data = false := by decide
example : fileMatches "stripe_".data "other_1.h5".data = false := by decide

/-- Python string comparison `a <= b` (lexicographic by code point) on
character lists, as used by `sorted`. -/
def pyStrLe : List Char → List Char → Bool
  | [], _ => true
  | _ :: _, [] => false
  | a :: as, b :: bs =>
      if a < b then true
      else if b < a then false
      else pyStrLe as bs

/-- The ordering `sorted(os.listdir(path))` sorts by. -/
def strLe (a b : String) : Prop := pyStrLe a.data b.data = true

instance strLe_decidable : DecidableRel strLe := fun a b =>
  inferInstanceAs (Decidable (pyStrLe a.data b.data = true))

/-- `VDSGenerator.find_files`: sort the directory listing, keep the names
matching the pattern, resolve them to full paths; raise on zero matches
and (with a different message) on a single match. -/
def find_files (path pfx : String) (listing : List String) :
    Except String (List String) :=
  let files := ((listing.insertionSort strLe).filter
    (fun f => fileMatches pfx.data f.data)).map (path_join path)
  if files.length = 0 then
    .error ("No files matching pattern found. Got path: " ++ path
      ++ ", prefix: " ++ pfx)
  else if files.length < 2 then
    .error "Folder must contain more than one matching HDF5 file."
  else
    .ok files

/-- The `files`-given branch of `VDSGenerator.__init__`:
`self.datasets = [os.path.join(path, file_) for file_ in files]` —
order-preserving, with no count check. -/
def datasets_from_files (path : String) (files : List String) : List String :=
  files.map (path_join path)

/-- The per-dataset existence loop of `VDSGenerator.__init__` when no
`source` is supplied: raise `IOError` at the first dataset path for which
`os.path.isfile` is false. -/
def check_files_exist (isfile : String → Bool) : List String → Except String Unit
  | [] => .ok ()
  | f :: rest =>
      if isfile f then check_files_exist isfile rest
      else .error ("File " ++ f ++ " does not exist. To create VDS from raw files that haven't been created yet, source must be provided.")

/-- The source-metadata step of `VDSGenerator.__init__`: without an
external `source`, every dataset must exist on disk and the metadata is
probed and cross-checked; with an external `source` dict, its shape is
parsed and no existence check is made (`isfile` is not consulted). -/
def init_source_metadata (isfile : String → Bool) (grab : String → Source)
    (datasets : List String) (source : Option (List Nat × String)) :
    Except String Source :=
  match source with
  | none => do
      check_files_exist isfile datasets
      process_source_datasets grab datasets
  | some (shape, dtype) =>
      match parse_shape shape with
      | some (frames, height, width) =>
          .ok { frames := frames, height := height, width := width,
                dtype := dtype }
      | none => .error "ValueError: need more than 1 value to unpack"

/-- Write mode for the VDS file: `CREATE = "w"`, `APPEND = "a"`. -/
inductive WriteMode where
  | create
  | append
deriving Repr, DecidableEq

/-- `VDSGenerator.generate_vds`, with the array store abstracted:
`file_isfile` is `os.path.isfile(self.output_file)` and `node_in_file`
tells whether the VDS file already has an entry for `target_node`.
Returns the commit that `create_virtual_dataset` receives — write mode,
map list and fill value — or the error raised before any commit. -/
def generate_vds (file_isfile node_in_file : Bool) (datasets : List String)
    (stripe_spacing module_spacing : Nat) (source : Source)
    (output_file : String) (target_node : List Char) :
    Except String (WriteMode × List VirtualMapRec × Nat) := do
  let mode ← if file_isfile then
      if node_in_file then
        .error ("VDS " ++ output_file ++ " already has an entry for node "
          ++ String.mk target_node)
      else
        pure WriteMode.append
    else
      pure WriteMode.create
  let vds_data := construct_vds_metadata datasets stripe_spacing module_spacing
    source
  let map_list := create_vds_maps datasets source vds_data
  let _ ← validate_node target_node
  pure (mode, map_list, 0x1)

/-! ### Helper lemmas -/

theorem length_foldl_set (l : List Nat) (v : Nat) (xs : List Nat) :
    (l.foldl (fun acc i => acc.set i v) xs).length = xs.length := by
  induction l generalizing xs with
  | nil => rfl
  | cons i l ih => simpa using ih (xs.set i v)

theorem getElem_foldl_set (l : List Nat) (v : Nat) (xs : List Nat) (j : Nat)
    (hj : j < xs.length)
    (hj' : j < (l.foldl (fun acc i => acc.set i v) xs).length) :
    (l.foldl (fun acc i => acc.set i v) xs)[j] =
      if j ∈ l then v else xs[j] := by
  induction l generalizing xs with
  | nil => simp
  | cons i l ih =>
    simp only [List.foldl_cons]
    rw [ih (xs.set i v) (by simpa using hj) (by simpa using hj'),
      List.getElem_set]
    by_cases hmem : j ∈ l
    · simp [hmem]
    · by_cases hij : i = j
      · simp [hij, hmem]
      · simp [hij, hmem, Ne.symm hij]

theorem mem_pythonRange_even (n j : Nat) (hn : 1 ≤ n) :
    j ∈ pythonRange 0 (n - 1) 2 ↔ j % 2 = 0 ∧ j + 1 < n := by
  unfold pythonRange
  rw [List.mem_range']
  constructor
  · rintro ⟨i, hi, rfl⟩
    omega
  · rintro ⟨hpar, hlt⟩
    exact ⟨j / 2, by omega, by omega⟩

theorem mem_pythonRange_odd (n j : Nat) :
    j ∈ pythonRange 1 n 2 ↔ j % 2 = 1 ∧ j < n := by
  unfold pythonRange
  rw [List.mem_range']
  constructor
  · rintro ⟨i, hi, rfl⟩
    omega
  · rintro ⟨hpar, hlt⟩
    exact ⟨j / 2, by omega, by omega⟩

theorem construct_spacing_length (datasets : List String) (s m : Nat)
    (source : Source) :
    (construct_vds_metadata datasets s m source).spacing.length =
      datasets.length := by
  unfold construct_vds_metadata
  simp [length_foldl_set]

theorem construct_spacing_getElem (datasets : List String) (s m : Nat)
    (source : Source) (j : Nat) (hn : 1 ≤ datasets.length)
    (hj : j < (construct_vds_metadata datasets s m source).spacing.length) :
    (construct_vds_metadata datasets s m source).spacing[j] =
      if j = datasets.length - 1 then 0
      else if j % 2 = 0 then s else m := by
  have hlen := construct_spacing_length datasets s m source
  have hjn : j < datasets.length := hlen ▸ hj
  unfold construct_vds_metadata at hj ⊢
  simp only at hj ⊢
  rw [List.getElem_set]
  have h1 : j < (List.replicate datasets.length 0).length := by
    simpa using hjn
  have h2 : j <
      ((pythonRange 0 (datasets.length - 1) 2).foldl
        (fun acc idx => acc.set idx s)
        (List.replicate datasets.length 0)).length := by
    rw [length_foldl_set]; simpa using hjn
  rw [getElem_foldl_set _ _ _ _ h2 (by rw [length_foldl_set]; exact h2),
    getElem_foldl_set _ _ _ _ h1 h2]
  simp only [mem_pythonRange_odd, mem_pythonRange_even _ _ hn,
    List.getElem_replicate]
  by_cases hlast : j = datasets.length - 1
  · simp [hlast]
  · have hne : ¬(datasets.length - 1 = j) := by omega
    have hj1 : j + 1 < datasets.length := by omega
    by_cases hpar : j % 2 = 0
    · have hodd : ¬(j % 2 = 1 ∧ j < datasets.length) := by omega
      simp [hlast, hpar, hj1, hodd, hne]
    · have hodd : j % 2 = 1 ∧ j < datasets.length := ⟨by omega, hjn⟩
      simp [hlast, hpar, hodd, hne]

theorem construct_spacing_getD (datasets : List String) (s m : Nat)
    (source : Source) (j : Nat) (hn : 1 ≤ datasets.length)
    (hj : j < datasets.length) :
    (construct_vds_metadata datasets s m source).spacing.getD j 0 =
      if j = datasets.length - 1 then 0
      else if j % 2 = 0 then s else m := by
  have hj' : j < (construct_vds_metadata datasets s m source).spacing.length := by
    rw [construct_spacing_length]; exact hj
  rw [List.getD_eq_getElem _ _ hj']
  exact construct_spacing_getElem datasets s m source j hn hj'

theorem construct_shape (datasets : List String) (s m : Nat)
    (source : Source) :
    (construct_vds_metadata datasets s m source).shape =
      source.frames ++
        [source.height * datasets.length +
          (construct_vds_metadata datasets s m source).spacing.sum,
         source.width] := by
  rfl

theorem vds_maps_go_length (source : Source) (sp : List Nat)
    (ds : List String) (idx pos : Nat) :
    (vds_maps_go source sp ds idx pos).length = ds.length := by
  induction ds generalizing idx pos with
  | nil => rfl
  | cons d rest ih => simp [vds_maps_go, ih]

theorem maps_sum_shift (h0 : Nat) (sp : List Nat) (idx k : Nat) :
    ((List.range (k + 1)).map (fun j => h0 + sp.getD (idx + j) 0)).sum =
      (h0 + sp.getD idx 0) +
        ((List.range k).map (fun j => h0 + sp.getD (idx + 1 + j) 0)).sum := by
  rw [List.range_succ_eq_map, List.map_cons, List.sum_cons, List.map_map]
  have h1 : h0 + sp.getD (idx + 0) 0 = h0 + sp.getD idx 0 := by
    rw [Nat.add_zero]
  have h2 : (List.range k).map
      ((fun j => h0 + sp.getD (idx + j) 0) ∘ Nat.succ) =
        (List.range k).map (fun j => h0 + sp.getD (idx + 1 + j) 0) :=
    List.map_congr_left (fun j _ => by
      show h0 + sp.getD (idx + Nat.succ j) 0 = h0 + sp.getD (idx + 1 + j) 0
      have hidx : idx + Nat.succ j = idx + 1 + j := by omega
      rw [hidx])
  rw [h1, h2]

theorem vds_maps_go_getElem (source : Source) (sp : List Nat)
    (ds : List String) (idx pos i : Nat) (hi : i < ds.length)
    (hi' : i < (vds_maps_go source sp ds idx pos).length) :
    (vds_maps_go source sp ds idx pos)[i] =
      { sourcePath := ds[i]
        sourceShape := source.frames ++ [source.height, source.width]
        targetStart := pos + ((List.range i).map
          (fun j => source.height + sp.getD (idx + j) 0)).sum
        targetStop := pos + ((List.range (i + 1)).map
          (fun j => source.height + sp.getD (idx + j) 0)).sum
        dtype := source.dtype } := by
  induction ds generalizing idx pos i with
  | nil => exact absurd hi (by simp)
  | cons d rest ih =>
    cases i with
    | zero =>
      simp only [vds_maps_go, List.getElem_cons_zero]
      simp [List.range_succ, Nat.add_assoc]
    | succ k =>
      have hk : k < rest.length := by simpa using hi
      have hk' : k < (vds_maps_go source sp rest (idx + 1)
          (pos + source.height + sp.getD idx 0)).length := by
        rw [vds_maps_go_length]; exact hk
      have step := ih (idx + 1) (pos + source.height + sp.getD idx 0) k hk hk'
      have lhs : (vds_maps_go source sp (d :: rest) idx pos)[k + 1] =
          (vds_maps_go source sp rest (idx + 1)
            (pos + source.height + sp.getD idx 0))[k] := by
        simp [vds_maps_go]
      rw [lhs, step]
      have hstart := maps_sum_shift source.height sp idx k
      have hstop := maps_sum_shift source.height sp idx (k + 1)
      simp only [VirtualMapRec.mk.injEq, List.getElem_cons_succ, true_and,
        and_true]
      exact ⟨by omega, by omega⟩

/-- Cumulative target offset before fragment `k`: the sum of
`height + spacing[j]` over the fragments `j < k`. -/
def mapSliceBound (source : Source) (sp : List Nat) (k : Nat) : Nat :=
  ((List.range k).map (fun j => source.height + sp.getD j 0)).sum

theorem mapSliceBound_succ (source : Source) (sp : List Nat) (k : Nat) :
    mapSliceBound source sp (k + 1) =
      mapSliceBound source sp k + (source.height + sp.getD k 0) := by
  unfold mapSliceBound
  rw [List.range_succ]
  simp

theorem mapSliceBound_strictMono (source : Source) (sp : List Nat)
    (hh : 1 ≤ source.height) : StrictMono (mapSliceBound source sp) := by
  apply strictMono_nat_of_lt_succ
  intro k
  rw [mapSliceBound_succ]
  omega

theorem mapSliceBound_mono (source : Source) (sp : List Nat) :
    Monotone (mapSliceBound source sp) := by
  apply monotone_nat_of_le_succ
  intro k
  rw [mapSliceBound_succ]
  omega

theorem map_getD_range_eq_self (l : List Nat) :
    (List.range l.length).map (fun j => l.getD j 0) = l := by
  apply List.ext_getElem (by simp)
  intro i h1 h2
  simp [List.getElem?_eq_getElem h2]

theorem mapSliceBound_eq (source : Source) (sp : List Nat) (k : Nat) :
    mapSliceBound source sp k =
      source.height * k + ((List.range k).map (fun j => sp.getD j 0)).sum := by
  induction k with
  | zero => rfl
  | succ n ih =>
    rw [mapSliceBound_succ, ih, List.range_succ]
    simp only [List.map_append, List.sum_append, List.map_cons, List.map_nil,
      List.sum_cons, List.sum_nil, Nat.mul_succ]
    omega

theorem mapSliceBound_total (source : Source) (sp : List Nat) :
    mapSliceBound source sp sp.length = source.height * sp.length + sp.sum := by
  rw [mapSliceBound_eq, map_getD_range_eq_self]

theorem create_vds_maps_length (datasets : List String) (source : Source)
    (vds_data : VDS) :
    (create_vds_maps datasets source vds_data).length = datasets.length :=
  vds_maps_go_length source vds_data.spacing datasets 0 0

theorem create_vds_maps_getElem (datasets : List String) (source : Source)
    (vds_data : VDS) (i : Nat) (hi : i < datasets.length)
    (hi' : i < (create_vds_maps datasets source vds_data).length) :
    (create_vds_maps datasets source vds_data)[i] =
      { sourcePath := datasets[i]
        sourceShape := source.frames ++ [source.height, source.width]
        targetStart := mapSliceBound source vds_data.spacing i
        targetStop := mapSliceBound source vds_data.spacing (i + 1)
        dtype := source.dtype } := by
  have hi2 : i < (vds_maps_go source vds_data.spacing datasets 0 0).length :=
    hi'
  show (vds_maps_go source vds_data.spacing datasets 0 0).get ⟨i, hi2⟩ = _
  rw [List.get_eq_getElem,
    vds_maps_go_getElem source vds_data.spacing datasets 0 0 i hi hi2]
  have hcongr : ∀ k : Nat, (List.range k).map
      (fun j => source.height + vds_data.spacing.getD (0 + j) 0) =
        (List.range k).map
          (fun j => source.height + vds_data.spacing.getD j 0) := by
    intro k
    exact List.map_congr_left (fun j _ => by rw [Nat.zero_add])
  simp only [hcongr, Nat.zero_add, mapSliceBound]

theorem vds_maps_go_cover (source : Source) (sp : List Nat)
    (ds : List String) :
    ∀ (idx pos x : Nat), pos ≤ x →
      x < pos + ((List.range ds.length).map
        (fun j => source.height + sp.getD (idx + j) 0)).sum →
      ∃ i, ∃ hi : i < (vds_maps_go source sp ds idx pos).length,
        (vds_maps_go source sp ds idx pos)[i].targetStart ≤ x ∧
          x < (vds_maps_go source sp ds idx pos)[i].targetStop := by
  induction ds with
  | nil =>
    intro idx pos x hle hlt
    simp at hlt
    omega
  | cons d rest ih =>
    intro idx pos x hle hlt
    by_cases hx : x < pos + source.height + sp.getD idx 0
    · have hlen0 : 0 < (vds_maps_go source sp (d :: rest) idx pos).length := by
        simp [vds_maps_go]
      refine ⟨0, hlen0, ?_, ?_⟩
      · simpa only [vds_maps_go, List.getElem_cons_zero] using hle
      · simp only [vds_maps_go, List.getElem_cons_zero]
        omega
    · have hshift := maps_sum_shift source.height sp idx rest.length
      simp only [List.length_cons] at hlt
      obtain ⟨i, hi, h1, h2⟩ := ih (idx + 1)
        (pos + source.height + sp.getD idx 0) x (by omega) (by omega)
      have hilen : i < rest.length := by
        simpa [vds_maps_go_length] using hi
      have hlen : i + 1 < (vds_maps_go source sp (d :: rest) idx pos).length := by
        simp only [vds_maps_go, List.length_cons, vds_maps_go_length]
        omega
      refine ⟨i + 1, hlen, ?_, ?_⟩
      · simpa only [vds_maps_go, List.getElem_cons_succ] using h1
      · simpa only [vds_maps_go, List.getElem_cons_succ] using h2

theorem range_map_shift_zero (source : Source) (sp : List Nat) (k : Nat) :
    (List.range k).map (fun j => source.height + sp.getD (0 + j) 0) =
      (List.range k).map (fun j => source.height + sp.getD j 0) :=
  List.map_congr_left (fun j _ => by rw [Nat.zero_add])

theorem create_vds_maps_cover (datasets : List String) (source : Source)
    (vds_data : VDS) (x : Nat)
    (hx : x < mapSliceBound source vds_data.spacing datasets.length) :
    ∃ i, ∃ hi : i < (create_vds_maps datasets source vds_data).length,
      ((create_vds_maps datasets source vds_data)[i]).targetStart ≤ x ∧
        x < ((create_vds_maps datasets source vds_data)[i]).targetStop := by
  have h := vds_maps_go_cover source vds_data.spacing datasets 0 0 x
    (Nat.zero_le x)
    (by rw [range_map_shift_zero, Nat.zero_add]; exact hx)
  exact h

/-! ### Claims -/

/-- C1: for every fragment count `n ≥ 2`, per-fragment height `h` and
spacings `s` (stripe) and `m` (module), `construct_vds_metadata` returns
a spacing sequence of length `n` in which every even index `i ≤ n - 2`
holds `s`, every odd index `i ≤ n - 1` holds `m` except that the last
entry is forced to `0`, and the total stacked height (the stacked entry
of the target shape) equals `n * h + sum(spacing)`; in particular for
`n = 6, h = 256, s = 10, m = 100` the spacing sequence is
`[10, 100, 10, 100, 10, 0]` and the total height is `1766`. -/
theorem spec_C1_layout_planner (datasets : List String) (n h s m w : Nat)
    (fr : List Nat) (dt : String) (hn : 2 ≤ n) (hlen : datasets.length = n) :
    (construct_vds_metadata datasets s m ⟨fr, h, w, dt⟩).spacing.length = n ∧
    (∀ j, j % 2 = 0 → j + 2 ≤ n →
      (construct_vds_metadata datasets s m ⟨fr, h, w, dt⟩).spacing.getD j 0
        = s) ∧
    (∀ j, j % 2 = 1 → j + 1 ≤ n →
      (construct_vds_metadata datasets s m ⟨fr, h, w, dt⟩).spacing.getD j 0
        = if j = n - 1 then 0 else m) ∧
    (construct_vds_metadata datasets s m ⟨fr, h, w, dt⟩).spacing.getD (n - 1) 0
      = 0 ∧
    (construct_vds_metadata datasets s m ⟨fr, h, w, dt⟩).shape =
      fr ++ [n * h +
        (construct_vds_metadata datasets s m ⟨fr, h, w, dt⟩).spacing.sum,
        w] ∧
    (construct_vds_metadata ["s1", "s2", "s3", "s4", "s5", "s6"] 10 100
      ⟨[3], 256, 2048, "uint16"⟩).spacing = [10, 100, 10, 100, 10, 0] ∧
    (construct_vds_metadata ["s1", "s2", "s3", "s4", "s5", "s6"] 10 100
      ⟨[3], 256, 2048, "uint16"⟩).shape = [3, 1766, 2048] := by
  have hn1 : 1 ≤ datasets.length := by omega
  refine ⟨?_, ?_, ?_, ?_, ?_, by decide, by decide⟩
  · rw [construct_spacing_length, hlen]
  · intro j hj2 hjle
    rw [construct_spacing_getD _ _ _ _ j hn1 (by omega), hlen]
    have h1 : ¬(j = n - 1) := by omega
    simp [h1, hj2]
  · intro j hj2 hjle
    rw [construct_spacing_getD _ _ _ _ j hn1 (by omega), hlen]
    by_cases hje : j = n - 1
    · simp [hje]
    · have h1 : ¬(j % 2 = 0) := by omega
      simp [hje, h1]
  · rw [construct_spacing_getD _ _ _ _ (n - 1) hn1 (by omega), hlen]
    simp
  · rw [construct_shape, hlen]
    simp [Nat.mul_comm]

/-- Witness for C1 at the concrete scenario of the claim. -/
theorem spec_C1_layout_planner_witness :
    (construct_vds_metadata ["s1", "s2", "s3", "s4", "s5", "s6"] 10 100
      ⟨[3], 256, 2048, "uint16"⟩).spacing = [10, 100, 10, 100, 10, 0] :=
  (spec_C1_layout_planner ["s1", "s2", "s3", "s4", "s5", "s6"] 6 256 10 100
    2048 [3] "uint16" (by decide) (by decide)).2.2.2.2.2.1

/-- C2, counterexample: with 2 fragments of height 256 and spacings
`s = 10, m = 100`, the first mapping's target slice on the stacked axis
is `[0, 266)` — `height + spacing[0]` rows — not `[0, 256)` as the claim
(`[start, start + height)`) requires, so the gap rows 256..265 are
covered by a mapping. -/
theorem spec_C2_counterexample :
    create_vds_maps ["a.h5", "b.h5"] ⟨[3], 256, 2048, "uint16"⟩
        (construct_vds_metadata ["a.h5", "b.h5"] 10 100
          ⟨[3], 256, 2048, "uint16"⟩) =
      [{ sourcePath := "a.h5", sourceShape := [3, 256, 2048],
         targetStart := 0, targetStop := 266, dtype := "uint16" },
       { sourcePath := "b.h5", sourceShape := [3, 256, 2048],
         targetStart := 266, targetStop := 522, dtype := "uint16" }] ∧
      (266 : Nat) ≠ 0 + 256 := by
  exact ⟨by decide, by decide⟩

/-- C2 as amended: each mapping's target slice on the stacked axis is
`[start, start + height + spacing[i])`, i.e. the gap that follows
fragment `i` is included in that fragment's own target slice rather than
left unmapped; only the final fragment (whose spacing entry is forced to
0) has a slice of exactly its own height. -/
theorem spec_C2_amended (datasets : List String) (s m : Nat) (source : Source)
    (i : Nat)
    (hi : i < (create_vds_maps datasets source
      (construct_vds_metadata datasets s m source)).length) :
    ((create_vds_maps datasets source
        (construct_vds_metadata datasets s m source))[i]).targetStop =
      ((create_vds_maps datasets source
        (construct_vds_metadata datasets s m source))[i]).targetStart +
        source.height +
        (construct_vds_metadata datasets s m source).spacing.getD i 0 ∧
    (i = datasets.length - 1 →
      ((create_vds_maps datasets source
          (construct_vds_metadata datasets s m source))[i]).targetStop =
        ((create_vds_maps datasets source
          (construct_vds_metadata datasets s m source))[i]).targetStart +
          source.height) := by
  have hid : i < datasets.length := by
    rw [← create_vds_maps_length datasets source
      (construct_vds_metadata datasets s m source)]
    exact hi
  rw [create_vds_maps_getElem _ _ _ i hid hi]
  constructor
  · simp only [mapSliceBound_succ]
    omega
  · intro hlast
    have h0 : (construct_vds_metadata datasets s m source).spacing.getD i 0
        = 0 := by
      rw [construct_spacing_getD _ _ _ _ i (by omega) hid]
      simp [hlast]
    simp only [mapSliceBound_succ, h0]
    omega

/-- Witness for the amended C2: with 2 fragments, height 256 and
stripe spacing 10, the first mapping's slice stop is its start plus
`256 + 10`. -/
theorem spec_C2_amended_witness :
    ((create_vds_maps ["a.h5", "b.h5"] ⟨[3], 256, 2048, "uint16"⟩
        (construct_vds_metadata ["a.h5", "b.h5"] 10 100
          ⟨[3], 256, 2048, "uint16"⟩)).get ⟨0, by decide⟩).targetStop =
      ((create_vds_maps ["a.h5", "b.h5"] ⟨[3], 256, 2048, "uint16"⟩
        (construct_vds_metadata ["a.h5", "b.h5"] 10 100
          ⟨[3], 256, 2048, "uint16"⟩)).get ⟨0, by decide⟩).targetStart +
        256 + 10 := by
  have h := (spec_C2_amended ["a.h5", "b.h5"] 10 100 ⟨[3], 256, 2048, "uint16"⟩
    0 (by decide)).1
  rw [List.get_eq_getElem, h]
  decide

/-- C4: for `n ≥ 2` consistent fragments (positive height),
`create_vds_maps` produces exactly `n` entries, one per fragment in input
order, whose target slices on the stacked axis are pairwise disjoint and
strictly increasing in start offset. -/
theorem spec_C4_mapping_builder (datasets : List String) (n s m : Nat)
    (source : Source) (hn : 2 ≤ n) (hlen : datasets.length = n)
    (hh : 1 ≤ source.height) :
    (create_vds_maps datasets source
      (construct_vds_metadata datasets s m source)).length = n ∧
    (∀ i (hi : i < (create_vds_maps datasets source
        (construct_vds_metadata datasets s m source)).length),
      ((create_vds_maps datasets source
        (construct_vds_metadata datasets s m source))[i]).sourcePath =
        datasets.getD i "") ∧
    (∀ i j (hi : i < (create_vds_maps datasets source
          (construct_vds_metadata datasets s m source)).length)
        (hj : j < (create_vds_maps datasets source
          (construct_vds_metadata datasets s m source)).length),
      i < j →
      ((create_vds_maps datasets source
          (construct_vds_metadata datasets s m source))[i]).targetStart <
        ((create_vds_maps datasets source
          (construct_vds_metadata datasets s m source))[j]).targetStart ∧
      ((create_vds_maps datasets source
          (construct_vds_metadata datasets s m source))[i]).targetStop ≤
        ((create_vds_maps datasets source
          (construct_vds_metadata datasets s m source))[j]).targetStart) := by
  have hlen' := create_vds_maps_length datasets source
    (construct_vds_metadata datasets s m source)
  refine ⟨by rw [hlen', hlen], ?_, ?_⟩
  · intro i hi
    have hid : i < datasets.length := by rw [← hlen']; exact hi
    rw [create_vds_maps_getElem _ _ _ i hid hi]
    rw [List.getD_eq_getElem _ _ hid]
  · intro i j hi hj hij
    have hid : i < datasets.length := by rw [← hlen']; exact hi
    have hjd : j < datasets.length := by rw [← hlen']; exact hj
    rw [create_vds_maps_getElem _ _ _ i hid hi,
      create_vds_maps_getElem _ _ _ j hjd hj]
    constructor
    · exact mapSliceBound_strictMono source _ hh hij
    · exact mapSliceBound_mono source _ (by omega)

/-- Witness for C4 with two fragments of height 256: the two slices are
ordered and disjoint. -/
theorem spec_C4_mapping_builder_witness :
    (create_vds_maps ["a.h5", "b.h5"] ⟨[3], 256, 2048, "uint16"⟩
      (construct_vds_metadata ["a.h5", "b.h5"] 10 100
        ⟨[3], 256, 2048, "uint16"⟩)).length = 2 ∧
    ((create_vds_maps ["a.h5", "b.h5"] ⟨[3], 256, 2048, "uint16"⟩
        (construct_vds_metadata ["a.h5", "b.h5"] 10 100
          ⟨[3], 256, 2048, "uint16"⟩)).get ⟨0, by decide⟩).targetStop ≤
      ((create_vds_maps ["a.h5", "b.h5"] ⟨[3], 256, 2048, "uint16"⟩
        (construct_vds_metadata ["a.h5", "b.h5"] 10 100
          ⟨[3], 256, 2048, "uint16"⟩)).get ⟨1, by decide⟩).targetStart := by
  have h := spec_C4_mapping_builder ["a.h5", "b.h5"] 2 10 100
    ⟨[3], 256, 2048, "uint16"⟩ (by decide) (by decide) (by decide)
  refine ⟨h.1, ?_⟩
  have h2 := (h.2.2 0 1 (by decide) (by decide) (by decide)).2
  rw [List.get_eq_getElem, List.get_eq_getElem]
  exact h2

/-- C9 (implicit): the target slices of `create_vds_maps` tile the
stacked axis contiguously — the first slice starts at 0, each slice's
stop is the next slice's start, the final slice's stop equals the
planned total height `height * n + sum(spacing)` (the stacked entry of
the planned shape), and every row below the total height lies in some
slice. -/
theorem spec_C9_contiguous_tiling (datasets : List String) (n s m : Nat)
    (source : Source) (hn : 1 ≤ n) (hlen : datasets.length = n) :
    (create_vds_maps datasets source
      (construct_vds_metadata datasets s m source)).length = n ∧
    (∀ hi : 0 < (create_vds_maps datasets source
        (construct_vds_metadata datasets s m source)).length,
      ((create_vds_maps datasets source
        (construct_vds_metadata datasets s m source))[0]).targetStart = 0) ∧
    (∀ i (hi : i < (create_vds_maps datasets source
          (construct_vds_metadata datasets s m source)).length)
        (hi1 : i + 1 < (create_vds_maps datasets source
          (construct_vds_metadata datasets s m source)).length),
      ((create_vds_maps datasets source
          (construct_vds_metadata datasets s m source))[i]).targetStop =
        ((create_vds_maps datasets source
          (construct_vds_metadata datasets s m source))[i + 1]).targetStart) ∧
    (∀ hlast : n - 1 < (create_vds_maps datasets source
        (construct_vds_metadata datasets s m source)).length,
      ((create_vds_maps datasets source
          (construct_vds_metadata datasets s m source))[n - 1]).targetStop =
        source.height * n +
          (construct_vds_metadata datasets s m source).spacing.sum) ∧
    (construct_vds_metadata datasets s m source).shape =
      source.frames ++ [source.height * n +
        (construct_vds_metadata datasets s m source).spacing.sum,
        source.width] ∧
    (∀ x, x < source.height * n +
        (construct_vds_metadata datasets s m source).spacing.sum →
      ∃ i, ∃ hi : i < (create_vds_maps datasets source
          (construct_vds_metadata datasets s m source)).length,
        ((create_vds_maps datasets source
          (construct_vds_metadata datasets s m source))[i]).targetStart ≤ x ∧
        x < ((create_vds_maps datasets source
          (construct_vds_metadata datasets s m source))[i]).targetStop) := by
  have hlen' := create_vds_maps_length datasets source
    (construct_vds_metadata datasets s m source)
  have hsp : (construct_vds_metadata datasets s m source).spacing.length =
      datasets.length := construct_spacing_length datasets s m source
  have htotal : mapSliceBound source
      (construct_vds_metadata datasets s m source).spacing datasets.length =
      source.height * n +
        (construct_vds_metadata datasets s m source).spacing.sum := by
    rw [← hsp, mapSliceBound_total, hsp, hlen]
  refine ⟨by rw [hlen', hlen], ?_, ?_, ?_, ?_, ?_⟩
  · intro hi
    rw [create_vds_maps_getElem _ _ _ 0 (by omega) hi]
    rfl
  · intro i hi hi1
    have hid : i < datasets.length := by rw [← hlen']; exact hi
    have hid1 : i + 1 < datasets.length := by rw [← hlen']; exact hi1
    rw [create_vds_maps_getElem _ _ _ i hid hi,
      create_vds_maps_getElem _ _ _ (i + 1) hid1 hi1]
  · intro hlast
    have hd : n - 1 < datasets.length := by rw [← hlen']; exact hlast
    rw [create_vds_maps_getElem _ _ _ (n - 1) hd hlast]
    show mapSliceBound source
      (construct_vds_metadata datasets s m source).spacing (n - 1 + 1) = _
    rw [← htotal]
    congr 1
    omega
  · rw [construct_shape, hlen]
  · intro x hx
    exact create_vds_maps_cover datasets source _ x (by rw [htotal]; exact hx)

/-- Witness for C9 with two fragments of height 256: slice 0 stops where
slice 1 starts. -/
theorem spec_C9_contiguous_tiling_witness :
    ((create_vds_maps ["a.h5", "b.h5"] ⟨[3], 256, 2048, "uint16"⟩
        (construct_vds_metadata ["a.h5", "b.h5"] 10 100
          ⟨[3], 256, 2048, "uint16"⟩)).get ⟨0, by decide⟩).targetStop =
      ((create_vds_maps ["a.h5", "b.h5"] ⟨[3], 256, 2048, "uint16"⟩
        (construct_vds_metadata ["a.h5", "b.h5"] 10 100
          ⟨[3], 256, 2048, "uint16"⟩)).get ⟨1, by decide⟩).targetStart := by
  have h := (spec_C9_contiguous_tiling ["a.h5", "b.h5"] 2 10 100
    ⟨[3], 256, 2048, "uint16"⟩ (by decide) (by decide)).2.2.1 0 (by decide)
    (by decide)
  rw [List.get_eq_getElem, List.get_eq_getElem]
  exact h

/-- C3, counterexample: for 2 fragments that disagree in both frames and
height, the claimed comparison order (height, width, elementType,
frameDims) would make the error name `height`, but
`process_source_datasets` iterates the metadata dict in its insertion
order `frames, height, width, dtype` and names `frames`. -/
theorem spec_C3_counterexample :
    process_source_datasets
        (fun d => if d = "f1" then ⟨[3], 256, 2048, "uint16"⟩
          else ⟨[4], 512, 2048, "uint16"⟩)
        ["f1", "f2"] = .error "Files have mismatched frames" ∧
      ("Files have mismatched frames" : String) ≠
        "Files have mismatched height" := by
  exact ⟨by decide, by decide⟩

theorem findMismatch_eq_none (r c : Source) (h : c = r) :
    findMismatch r c = none := by
  subst h
  simp [findMismatch]

theorem findMismatch_of_ne (r c : Source) (h : c ≠ r) :
    findMismatch r c = some
      (if c.frames ≠ r.frames then "frames"
       else if c.height ≠ r.height then "height"
       else if c.width ≠ r.width then "width"
       else "dtype") := by
  by_cases h1 : c.frames = r.frames
  · by_cases h2 : c.height = r.height
    · by_cases h3 : c.width = r.width
      · by_cases h4 : c.dtype = r.dtype
        · exact absurd (by cases c; cases r; simp_all) h
        · simp [findMismatch, h1, h2, h3, h4]
      · simp [findMismatch, h1, h2, h3]
    · simp [findMismatch, h1, h2]
  · simp [findMismatch, h1]

theorem psd_loop_ok (data : Source) (grab : String → Source) :
    ∀ l : List String, (∀ d ∈ l, findMismatch data (grab d) = none) →
      psd_loop data grab l = .ok data
  | [], _ => rfl
  | d :: more, h => by
    have h0 : findMismatch data (grab d) = none := h d (by simp)
    simp only [psd_loop, h0]
    exact psd_loop_ok data grab more (fun d2 hd2 => h d2 (by simp [hd2]))

theorem psd_loop_first_error (data : Source) (grab : String → Source)
    (d : String) (post : List String) (attr : String)
    (hd : findMismatch data (grab d) = some attr) :
    ∀ pre : List String,
      (∀ d2 ∈ pre, findMismatch data (grab d2) = none) →
      psd_loop data grab (pre ++ d :: post) =
        .error ("Files have mismatched " ++ attr)
  | [], _ => by simp only [List.nil_append, psd_loop, hd]
  | p :: pre, h => by
    have h0 : findMismatch data (grab p) = none := h p (by simp)
    simp only [List.cons_append, psd_loop, h0]
    exact psd_loop_first_error data grab d post attr hd pre
      (fun d2 hd2 => h d2 (by simp [hd2]))

/-- C3 as amended: for every sequence of fragment metadata records, the
validator takes the first fragment's metadata as the reference and scans
each subsequent fragment in order, failing at the first fragment whose
metadata differs from the reference, with an error naming the first
mismatching attribute in the dict insertion order
`frames, height, width, dtype`; the fragments after the first mismatch
are never examined (the result does not depend on them), and when every
subsequent fragment matches, the reference is returned; in particular,
for 2 fragments identical except in width, the error names `width`. -/
theorem spec_C3_amended (grab : String → Source) (d0 : String)
    (rest : List String) :
    ((∀ d ∈ rest, grab d = grab d0) →
      process_source_datasets grab (d0 :: rest) = .ok (grab d0)) ∧
    (∀ (pre post : List String) (d : String),
      rest = pre ++ d :: post →
      (∀ d2 ∈ pre, grab d2 = grab d0) →
      grab d ≠ grab d0 →
      process_source_datasets grab (d0 :: rest) =
        .error ("Files have mismatched " ++
          (if (grab d).frames ≠ (grab d0).frames then "frames"
           else if (grab d).height ≠ (grab d0).height then "height"
           else if (grab d).width ≠ (grab d0).width then "width"
           else "dtype"))) ∧
    (∀ r c : Source, c.frames = r.frames → c.height = r.height →
      c.width ≠ r.width →
      process_source_datasets (fun x => if x = "f1" then r else c)
        ["f1", "f2"] = .error "Files have mismatched width") := by
  refine ⟨?_, ?_, ?_⟩
  · intro hall
    show psd_loop (grab d0) grab rest = .ok (grab d0)
    exact psd_loop_ok (grab d0) grab rest
      (fun d hd => findMismatch_eq_none _ _ (hall d hd))
  · intro pre post d hrest hpre hne
    subst hrest
    show psd_loop (grab d0) grab (pre ++ d :: post) = _
    exact psd_loop_first_error (grab d0) grab d post _
      (findMismatch_of_ne _ _ hne) pre
      (fun d2 hd2 => findMismatch_eq_none _ _ (hpre d2 hd2))
  · intro r c hf hh hw
    simp only [process_source_datasets, psd_loop, findMismatch]
    norm_num
    simp [hf, hh, hw]

/-- Witness for the amended C3: 2 fragments differing only in width name
`width`, and a mismatch at the third of four fragments names the first
differing attribute in dict order. -/
theorem spec_C3_amended_witness :
    process_source_datasets
        (fun x => if x = "f1" then (⟨[3], 256, 2048, "uint16"⟩ : Source)
          else ⟨[3], 256, 1024, "uint16"⟩) ["f1", "f2"] =
      .error "Files have mismatched width" ∧
    process_source_datasets
        (fun x => if x = "f3" then (⟨[4], 256, 2048, "uint16"⟩ : Source)
          else ⟨[3], 256, 2048, "uint16"⟩) ["f1", "f2", "f3", "f4"] =
      .error "Files have mismatched frames" := by
  constructor
  · exact (spec_C3_amended (fun x => if x = "f1" then
      (⟨[3], 256, 2048, "uint16"⟩ : Source) else ⟨[3], 256, 1024, "uint16"⟩)
      "f1" ["f2"]).2.2 ⟨[3], 256, 2048, "uint16"⟩ ⟨[3], 256, 1024, "uint16"⟩
      rfl rfl (by decide)
  · have h := (spec_C3_amended (fun x => if x = "f3" then
      (⟨[4], 256, 2048, "uint16"⟩ : Source) else ⟨[3], 256, 2048, "uint16"⟩)
      "f1" ["f2", "f3", "f4"]).2.1 ["f2"] ["f4"] "f3" rfl (by decide)
      (by decide)
    rw [h]
    decide

/-- C5: the mode selector of `generate_vds` is a two-state decision —
output file absent gives write mode Create; file present with the target
node already populated fails before any commit; file present without the
node gives Append. -/
theorem spec_C5_mode_selector (file_isfile node_in_file : Bool)
    (datasets : List String) (s m : Nat) (source : Source)
    (output_file : String) (tn : List Char) :
    (file_isfile = false → (validate_node tn).isOk = true →
      generate_vds file_isfile node_in_file datasets s m source output_file tn
        = .ok (WriteMode.create,
          create_vds_maps datasets source
            (construct_vds_metadata datasets s m source), 1)) ∧
    (file_isfile = true → node_in_file = true →
      generate_vds file_isfile node_in_file datasets s m source output_file tn
        = .error ("VDS " ++ output_file ++ " already has an entry for node "
          ++ String.mk tn)) ∧
    (file_isfile = true → node_in_file = false →
      (validate_node tn).isOk = true →
      generate_vds file_isfile node_in_file datasets s m source output_file tn
        = .ok (WriteMode.append,
          create_vds_maps datasets source
            (construct_vds_metadata datasets s m source), 1)) := by
  refine ⟨?_, ?_, ?_⟩
  · intro hfe hvalid
    subst hfe
    obtain ⟨g, hg⟩ : ∃ g, validate_node tn = .ok g := by
      cases hv : validate_node tn with
      | ok g => exact ⟨g, rfl⟩
      | error e => rw [hv] at hvalid; simp [Except.isOk, Except.toBool] at hvalid
    simp only [generate_vds, hg]
    rfl
  · intro hfe hne
    subst hfe; subst hne
    rfl
  · intro hfe hne hvalid
    subst hfe; subst hne
    obtain ⟨g, hg⟩ : ∃ g, validate_node tn = .ok g := by
      cases hv : validate_node tn with
      | ok g => exact ⟨g, rfl⟩
      | error e => rw [hv] at hvalid; simp [Except.isOk, Except.toBool] at hvalid
    simp only [generate_vds, hg]
    rfl

/-- Witness for C5: with an existing file whose node is populated, the
run errors; with no file, mode is Create. -/
theorem spec_C5_mode_selector_witness :
    generate_vds true true ["a.h5", "b.h5"] 10 100 ⟨[3], 256, 2048, "uint16"⟩
        "/test/path/vds.hdf5" "full_frame".data =
      .error ("VDS " ++ "/test/path/vds.hdf5"
        ++ " already has an entry for node " ++ String.mk "full_frame".data) ∧
    generate_vds false true ["a.h5", "b.h5"] 10 100 ⟨[3], 256, 2048, "uint16"⟩
        "/test/path/vds.hdf5" "full_frame".data =
      .ok (WriteMode.create,
        create_vds_maps ["a.h5", "b.h5"] ⟨[3], 256, 2048, "uint16"⟩
          (construct_vds_metadata ["a.h5", "b.h5"] 10 100
            ⟨[3], 256, 2048, "uint16"⟩), 1) := by
  have h := spec_C5_mode_selector true true ["a.h5", "b.h5"] 10 100
    ⟨[3], 256, 2048, "uint16"⟩ "/test/path/vds.hdf5" "full_frame".data
  have h2 := spec_C5_mode_selector false true ["a.h5", "b.h5"] 10 100
    ⟨[3], 256, 2048, "uint16"⟩ "/test/path/vds.hdf5" "full_frame".data
  exact ⟨h.2.1 rfl rfl, h2.1 rfl (by decide)⟩

theorem pyStartsWith_slash (l : List Char) :
    pyStartsWith l ['/'] = true ↔ l.head? = some '/' := by
  unfold pyStartsWith
  rw [List.isPrefixOf_iff_prefix]
  cases l with
  | nil => simp
  | cons c t => simp [List.cons_prefix_cons, eq_comm]

theorem pyEndsWith_slash (l : List Char) :
    pyEndsWith l ['/'] = true ↔ l.getLast? = some '/' := by
  rw [show pyEndsWith l ['/'] = pyStartsWith l.reverse ['/'] from rfl,
    pyStartsWith_slash, List.head?_reverse]

/-- C6: `validate_node` fails with the path error exactly when the
target node begins or ends with a path separator, and otherwise
succeeds; in particular `"/entry/detector"` is rejected. -/
theorem spec_C6_validate_node (tn : List Char) :
    ((∃ e, validate_node tn = .error e) ↔
      tn.head? = some '/' ∨ tn.getLast? = some '/') ∧
    (tn.head? ≠ some '/' → tn.getLast? ≠ some '/' →
      ∃ g, validate_node tn = .ok g) ∧
    validate_node "/entry/detector".data =
      .error ("Target node should have no leading or trailing slashes, got "
        ++ String.mk "/entry/detector".data) := by
  have hs := pyStartsWith_slash tn
  have he := pyEndsWith_slash tn
  refine ⟨⟨?_, ?_⟩, ?_, by decide⟩
  · rintro ⟨e, he2⟩
    by_contra hno
    push_neg at hno
    have h1 : pyStartsWith tn ['/'] = false := by
      rw [← Bool.not_eq_true, hs]; exact hno.1
    have h2 : pyEndsWith tn ['/'] = false := by
      rw [← Bool.not_eq_true, he]; exact hno.2
    by_cases hc : '/' ∈ tn <;>
      simp [validate_node, h1, h2, hc] at he2
  · intro hor
    have hcond : (pyStartsWith tn ['/'] || pyEndsWith tn ['/']) = true := by
      rcases hor with h | h
      · simp [hs, h]
      · simp [he, h]
    exact ⟨"Target node should have no leading or trailing slashes, got "
      ++ String.mk tn, by simp [validate_node, hcond]⟩
  · intro h1 h2
    have hs' : pyStartsWith tn ['/'] = false := by
      rw [← Bool.not_eq_true, hs]; exact h1
    have he' : pyEndsWith tn ['/'] = false := by
      rw [← Bool.not_eq_true, he]; exact h2
    by_cases hc : '/' ∈ tn
    · exact ⟨some (beforeLast '/' tn), by simp [validate_node, hs', he', hc]⟩
    · exact ⟨none, by simp [validate_node, hs', he', hc]⟩

/-- Witness for C6: a well-formed node validates. -/
theorem spec_C6_validate_node_witness :
    (validate_node "entry/detector".data).isOk = true := by
  obtain ⟨g, hg⟩ := (spec_C6_validate_node "entry/detector".data).2.1
    (by decide) (by decide)
  rw [hg]
  rfl

/-- C8: building the generator without external source metadata probes
the dataset paths in order and fails with an `IOError` naming the first
path that does not exist; with external metadata supplied, no existence
check is performed at all (`isfile` is never consulted). -/
theorem spec_C8_existence_probe (isfile : String → Bool)
    (grab : String → Source) (datasets : List String) :
    (check_files_exist isfile datasets =
      match datasets.find? (fun d => !isfile d) with
      | some d => .error ("File " ++ d ++ " does not exist. To create VDS from raw files that haven't been created yet, source must be provided.")
      | none => .ok ()) ∧
    ((∀ d ∈ datasets, isfile d = true) →
      init_source_metadata isfile grab datasets none =
        process_source_datasets grab datasets) ∧
    (∀ src : List Nat × String, ∀ isfile2 : String → Bool,
      init_source_metadata isfile grab datasets (some src) =
        init_source_metadata isfile2 grab datasets (some src)) := by
  refine ⟨?_, ?_, fun src isfile2 => rfl⟩
  · induction datasets with
    | nil => rfl
    | cons f rest ih =>
      by_cases hf : isfile f
      · rw [show check_files_exist isfile (f :: rest) =
            check_files_exist isfile rest by simp [check_files_exist, hf],
          ih, List.find?_cons_of_neg _ (by simp [hf])]
      · rw [List.find?_cons_of_pos _ (by simp [hf])]
        simp [check_files_exist, hf]
  · intro hall
    have hnone : datasets.find? (fun d => !isfile d) = none := by
      rw [List.find?_eq_none]
      intro x hx
      simp [hall x hx]
    have hok : check_files_exist isfile datasets = .ok () := by
      induction datasets with
      | nil => rfl
      | cons f rest ih =>
        have hf : isfile f = true := hall f (by simp)
        rw [show check_files_exist isfile (f :: rest) =
            check_files_exist isfile rest by simp [check_files_exist, hf]]
        exact ih (fun d hd => hall d (by simp [hd])) (by
          rw [List.find?_eq_none] at hnone ⊢
          intro x hx
          exact hnone x (by simp [hx]))
      -- (the nested induction re-derives the conclusion for the tail)
    show Except.bind (check_files_exist isfile datasets)
        (fun _ => process_source_datasets grab datasets) = _
    rw [hok]
    rfl

/-- Witness for C8: with all files present, construction proceeds to
metadata probing. -/
theorem spec_C8_existence_probe_witness :
    init_source_metadata (fun _ => true)
        (fun _ => ⟨[3], 256, 2048, "uint16"⟩) ["a.h5", "b.h5"] none =
      process_source_datasets (fun _ => ⟨[3], 256, 2048, "uint16"⟩)
        ["a.h5", "b.h5"] :=
  (spec_C8_existence_probe (fun _ => true)
    (fun _ => ⟨[3], 256, 2048, "uint16"⟩) ["a.h5", "b.h5"]).2.1
    (fun d _ => rfl)

/-- C10 (implicit): for shapes with at least 2 axes, `parse_shape`
splits off the trailing two axes as height and width, and
`frames ++ [height, width]` reconstructs the original shape; for shorter
shapes it raises instead of returning. -/
theorem spec_C10_parse_shape (shape : List Nat) :
    (2 ≤ shape.length →
      parse_shape shape = some (shape.take (shape.length - 2),
        shape.getD (shape.length - 2) 0, shape.getD (shape.length - 1) 0) ∧
      shape.take (shape.length - 2) ++
        [shape.getD (shape.length - 2) 0, shape.getD (shape.length - 1) 0] =
        shape) ∧
    (shape.length < 2 → parse_shape shape = none) := by
  constructor
  · intro h2
    have hl1 : shape.length - 2 < shape.length := by omega
    have hl2 : shape.length - 1 < shape.length := by omega
    have hdrop : shape.drop (shape.length - 2) =
        [shape.getD (shape.length - 2) 0, shape.getD (shape.length - 1) 0] := by
      apply List.ext_getElem
      · simp
        omega
      · intro i hi1 hi2
        rw [List.getElem_drop]
        match i, hi2 with
        | 0, _ =>
          simp only [List.getElem_cons_zero]
          rw [List.getD_eq_getElem _ _ hl1]
          simp only [Nat.add_zero]
        | 1, _ =>
          simp only [List.getElem_cons_succ, List.getElem_cons_zero]
          rw [List.getD_eq_getElem _ _ hl2]
          have hidx : shape.length - 2 + 1 = shape.length - 1 := by omega
          simp only [hidx]
    constructor
    · unfold parse_shape
      rw [hdrop]
    · conv_rhs => rw [← List.take_append_drop (shape.length - 2) shape]
      rw [hdrop]
  · intro hlt
    match shape, hlt with
    | [], _ => rfl
    | [a], _ => rfl

/-- Witness for C10 at shape `(3, 256, 2048)`. -/
theorem spec_C10_parse_shape_witness :
    parse_shape [3, 256, 2048] = some ([3], 256, 2048) := by
  have h := ((spec_C10_parse_shape [3, 256, 2048]).1 (by decide)).1
  rw [h]
  decide

theorem pyStrLe_total : ∀ a b : List Char,
    pyStrLe a b = true ∨ pyStrLe b a = true
  | [], _ => .inl rfl
  | _ :: _, [] => .inr rfl
  | a :: as, b :: bs => by
    rcases lt_trichotomy a b with h | h | h
    · left; simp [pyStrLe, h]
    · subst h
      rcases pyStrLe_total as bs with ih | ih
      · left; simp [pyStrLe, lt_irrefl, ih]
      · right; simp [pyStrLe, lt_irrefl, ih]
    · right; simp [pyStrLe, h]

theorem pyStrLe_trans : ∀ a b c : List Char, pyStrLe a b = true →
    pyStrLe b c = true → pyStrLe a c = true
  | [], _, _, _, _ => rfl
  | _ :: _, [], _, h1, _ => by simp [pyStrLe] at h1
  | _ :: _, _ :: _, [], _, h2 => by simp [pyStrLe] at h2
  | a :: as, b :: bs, c :: cs, h1, h2 => by
    by_cases hab : a < b
    · by_cases hbc : b < c
      · simp [pyStrLe, lt_trans hab hbc]
      · by_cases hcb : c < b
        · simp [pyStrLe, hbc, hcb] at h2
        · have hbceq : b = c := le_antisymm (not_lt.mp hcb) (not_lt.mp hbc)
          subst hbceq
          simp [pyStrLe, hab]
    · by_cases hba : b < a
      · simp [pyStrLe, hab, hba] at h1
      · have habeq : a = b := le_antisymm (not_lt.mp hba) (not_lt.mp hab)
        subst habeq
        simp only [pyStrLe, lt_irrefl, if_neg (lt_irrefl a)] at h1
        by_cases hac : a < c
        · simp [pyStrLe, hac]
        · by_cases hca : c < a
          · simp [pyStrLe, hac, hca] at h2
          · have haceq : a = c := le_antisymm (not_lt.mp hca) (not_lt.mp hac)
            subst haceq
            simp only [pyStrLe, lt_irrefl, if_neg (lt_irrefl a)] at h2 ⊢
            exact pyStrLe_trans as bs cs h1 h2

instance strLe_isTotal : IsTotal String strLe :=
  ⟨fun a b => pyStrLe_total a.data b.data⟩

instance strLe_isTrans : IsTrans String strLe :=
  ⟨fun a b c => pyStrLe_trans a.data b.data c.data⟩

theorem pyStrLe_iff : ∀ a b : List Char,
    pyStrLe a b = true ↔ (a = b ∨ List.Lex (· < ·) a b)
  | [], [] => by simp [pyStrLe]
  | [], _ :: _ => ⟨fun _ => .inr .nil, fun _ => rfl⟩
  | a :: as, [] => by
    constructor
    · intro h
      exact absurd h (by simp [pyStrLe])
    · rintro (h | h)
      · exact absurd h (by simp)
      · cases h
  | a :: as, b :: bs => by
    rcases lt_trichotomy a b with h | h | h
    · constructor
      · intro _
        exact .inr (.rel h)
      · intro _
        simp [pyStrLe, h]
    · subst h
      have ih := pyStrLe_iff as bs
      constructor
      · intro hp
        have hp' : pyStrLe as bs = true := by
          simpa [pyStrLe, lt_irrefl] using hp
        rcases ih.mp hp' with he | hl
        · exact .inl (by rw [he])
        · exact .inr (.cons hl)
      · rintro (he | hl)
        · injection he with h1 h2
          subst h2
          simp only [pyStrLe, if_neg (lt_irrefl a)]
          exact ih.mpr (.inl rfl)
        · cases hl with
          | rel h0 => exact absurd h0 (lt_irrefl a)
          | cons h0 =>
            simp only [pyStrLe, if_neg (lt_irrefl a)]
            exact ih.mpr (.inr h0)
    · constructor
      · intro hp
        simp [pyStrLe, asymm h, h] at hp
      · rintro (he | hl)
        · injection he with h1 _
          exact absurd h1 (ne_of_gt h)
        · cases hl with
          | rel h0 => exact absurd h0 (lt_asymm h)
          | cons h0 => exact absurd h (lt_irrefl _)

theorem lex_append_left (x a b : List Char)
    (h : List.Lex (· < ·) a b) : List.Lex (· < ·) (x ++ a) (x ++ b) := by
  induction x with
  | nil => exact h
  | cons c t ih => exact .cons ih

/-- Lexicographic (code-point) order on strings: equal, or strictly
lexicographically smaller. -/
def lexLe (a b : String) : Prop :=
  a.data = b.data ∨ List.Lex (· < ·) a.data b.data

theorem path_join_lexLe (path : String) (a b : String) (h : strLe a b) :
    lexLe (path_join path a) (path_join path b) := by
  rcases (pyStrLe_iff a.data b.data).mp h with he | hl
  · left
    show (path ++ "/" ++ a).data = (path ++ "/" ++ b).data
    rw [String.data_append, String.data_append, String.data_append,
      String.data_append, he]
  · right
    show List.Lex (· < ·) (path ++ "/" ++ a).data (path ++ "/" ++ b).data
    rw [String.data_append, String.data_append]
    exact lex_append_left _ _ _ hl

/-- C7: prefix-based fragment resolution returns the matching files
sorted lexicographically; fewer than 2 matches is fatal, with a distinct
message for zero matches and for a single match; an explicitly supplied
file list is resolved order-preserved with no minimum-count check. -/
theorem spec_C7_find_files (path pfx : String) (listing files2 : List String) :
    ((((listing.insertionSort strLe).filter
        (fun f => fileMatches pfx.data f.data)).map (path_join path)).length
          = 0 →
      find_files path pfx listing =
        .error ("No files matching pattern found. Got path: " ++ path
          ++ ", prefix: " ++ pfx)) ∧
    ((((listing.insertionSort strLe).filter
        (fun f => fileMatches pfx.data f.data)).map (path_join path)).length
          = 1 →
      find_files path pfx listing =
        .error "Folder must contain more than one matching HDF5 file.") ∧
    (2 ≤ (((listing.insertionSort strLe).filter
        (fun f => fileMatches pfx.data f.data)).map (path_join path)).length →
      find_files path pfx listing =
        .ok (((listing.insertionSort strLe).filter
          (fun f => fileMatches pfx.data f.data)).map (path_join path))) ∧
    (((listing.insertionSort strLe).filter
      (fun f => fileMatches pfx.data f.data)).map (path_join path)).Sorted
        lexLe ∧
    (((listing.insertionSort strLe).filter
      (fun f => fileMatches pfx.data f.data)).map (path_join path)).Perm
        ((listing.filter (fun f => fileMatches pfx.data f.data)).map
          (path_join path)) ∧
    ("No files matching pattern found. Got path: " ++ path
      ++ ", prefix: " ++ pfx) ≠
      "Folder must contain more than one matching HDF5 file." ∧
    datasets_from_files path files2 = files2.map (path_join path) := by
  refine ⟨?_, ?_, ?_, ?_, ?_, ?_, rfl⟩
  · intro h0
    simp only [find_files]
    rw [if_pos h0]
  · intro h1
    simp only [find_files]
    rw [if_neg (by omega), if_pos (by omega)]
  · intro h2
    simp only [find_files]
    rw [if_neg (by omega), if_neg (by omega)]
  · exact List.Pairwise.map _ (fun a b hab => path_join_lexLe path a b hab)
      (List.Pairwise.filter _ (List.sorted_insertionSort _ listing))
  · exact (List.Perm.filter _ (List.perm_insertionSort _ listing)).map _
  · intro heq
    have h0 := congrArg (fun s : String => s.data.head?) heq
    simp only [String.data_append, List.head?_append] at h0
    have hN : ("No files matching pattern found. Got path: " : String).data.head?
        = some 'N' := by decide
    rw [hN] at h0
    simp at h0

/-- Witness for C7: three out-of-order matching files are returned
sorted. -/
theorem spec_C7_find_files_witness :
    find_files "/test/path" "stripe_"
        ["stripe_3.h5", "stripe_1.h5", "stripe_2.h5"] =
      .ok ["/test/path/stripe_1.h5", "/test/path/stripe_2.h5",
        "/test/path/stripe_3.h5"] := by
  have h := (spec_C7_find_files "/test/path" "stripe_"
    ["stripe_3.h5", "stripe_1.h5", "stripe_2.h5"] []).2.2.1 (by decide)
  rw [h]
  decide

end VdsGen
